import Mathlib

/-!
Shallow embedding of the `etlstat` database helpers
(`src/etlstat/database/mysql.py` and `src/etlstat/database/oracle.py`)
and proofs about the behaviour their specification claims.

Modelling conventions:
* Python exceptions become an explicit `PyExn` value threaded through results.
* The class-level state of `MySQL` (`connected`, `engine`) becomes `MySQLState`.
* The SQL engine is abstracted as a `Database`: a set of existing table
  names (mutated by executing a well-formed `CREATE TABLE` statement), an
  abstract `rowcount` oracle giving the matched-row count of any executed
  DML statement, and a `query` oracle giving the rows and column keys a
  statement returns.
* The local filesystem used by `bulk_insert` becomes an association list
  from path to file lines.
* Python string slicing `s[:-n]` becomes `pySliceDrop n s`; Python
  `str.split(sep)` with exact-arity tuple unpacking becomes `pySplitStr`
  plus a pattern match whose failure raises the `ValueError` that the
  unpacking would raise.
-/

/-- Python values stored in a pandas DataFrame cell, restricted to the two
shapes the code distinguishes (`isinstance(value, str)` vs everything else,
here integers). -/
inductive Value where
  | vstr : String → Value
  | vnum : Int → Value
deriving DecidableEq, Repr

/-- Rendering of a non-string value by Python's `"{0}".format(value)`. -/
def Value.render : Value → String
  | .vstr s => s
  | .vnum n => toString n

/-- The pandas dtypes that appear in `MySQL.conversion_map`. -/
inductive Dtype where
  | object | int64 | float64
deriving DecidableEq, Repr

/-- `MySQL.conversion_map`: dtype name to SQL column type. -/
def MySQL.conversion_map : Dtype → String
  | .object => "VARCHAR(255)"
  | .int64 => "INT"
  | .float64 => "DECIMAL"

/-- A pandas DataFrame as the code uses it: a `name` attribute, labelled
typed columns, and rows.  `iterrows` pairs each row with its index, so rows
carry their index; in a real DataFrame every row has exactly one value per
column. -/
structure DataFrame where
  name : String
  columns : List (String × Dtype)
  rows : List (Nat × List Value)
deriving DecidableEq, Repr

/-- Python exceptions raised by the code. -/
inductive PyExn where
  | typeError : String → PyExn
  | valueError : String → PyExn
  | notImplementedError : String → PyExn
deriving DecidableEq, Repr

/-- Python slice `s[:-n]`: all characters of `s` but the last `n` (the whole
of `s` shorter than `n` gives the empty string, as in Python). -/
def pySliceDrop (n : Nat) (s : String) : String :=
  String.mk (s.data.take (s.data.length - n))

/-- Joining a list of strings with `", "`; the shape the spec writes as
`<x>, <y>, …`. -/
def joinComma : List String → String
  | [] => ""
  | [x] => x
  | x :: y :: ys => x ++ ", " ++ joinComma (y :: ys)

/-- Joining a list of strings with an arbitrary separator. -/
def joinSep (sep : String) : List String → String
  | [] => ""
  | [x] => x
  | x :: y :: ys => x ++ sep ++ joinSep sep (y :: ys)

/-- Fuel-driven worker for `pySplit`; fuel at least the length of the input
plus one makes the fuel-exhausted branch unreachable. -/
def pySplitGo (sep : List Char) : Nat → List Char → List Char → List (List Char)
  | _, [], cur => [cur.reverse]
  | 0, s, cur => [cur.reverse ++ s]
  | fuel + 1, c :: rest, cur =>
    if sep.isPrefixOf (c :: rest) then
      cur.reverse :: pySplitGo sep fuel (List.drop sep.length (c :: rest)) []
    else
      pySplitGo sep fuel rest (c :: cur)

/-- Python `str.split(sep)` for a non-empty separator: non-overlapping
left-to-right splitting, keeping empty pieces. -/
def pySplit (sep s : List Char) : List (List Char) :=
  pySplitGo sep (s.length + 1) s []

/-- Python `str.split(sep)` on `String`s. -/
def pySplitStr (sep s : String) : List String :=
  (pySplit sep.data s.data).map String.mk

/-- The sequence of `split` calls with exact-arity unpacking performed by
`MySQL._connect`; `none` models any of the `ValueError`s the unpackings
raise on the wrong number of pieces.  Result order:
(connector, username, password, ip, port, db). -/
def parseConnString (cs : String) :
    Option (String × String × String × String × String × String) :=
  match pySplitStr "://" cs with
  | [connector, conn_data] =>
    match pySplitStr ":" conn_data with
    | [username, link, port_db] =>
      match pySplitStr "/" port_db with
      | [port, db] =>
        match pySplitStr "@" link with
        | [password, ip] => some (connector, username, password, ip, port, db)
        | _ => none
      | _ => none
    | _ => none
  | _ => none

/-- The `conn_string` argument: either an actual Python string or a value of
another type (for which `isinstance(conn_string, str)` is false). -/
inductive ConnArg where
  | str : String → ConnArg
  | nonStr : ConnArg
deriving DecidableEq, Repr

/-- The class-level state of `MySQL`: the `connected` flag and the engine
handle (recorded as the connection string it was created from). -/
structure MySQLState where
  connected : Bool
  engine : Option String
deriving DecidableEq, Repr

/-- Message of the `TypeError` raised by `_connect`. -/
def MySQL.connMsg : String := "conn_string must be a string connector."

/-- Message of the `NotImplementedError` raised by `_connect`. -/
def MySQL.engineMsg : String := "Engine type not supported."

/-- `MySQL._connect`: returns the (possibly updated) class state together
with either success or the exception raised.  On an exception the class
state is unchanged because the code assigns `cls.engine` and
`cls.connected` only after all checks pass. -/
def MySQL.connectRun (conn_string : ConnArg) (s : MySQLState) :
    MySQLState × Except PyExn Unit :=
  if s.connected then (s, .ok ())
  else
    match conn_string with
    | .nonStr => (s, .error (.typeError MySQL.connMsg))
    | .str cs =>
      if cs = "" then (s, .error (.typeError MySQL.connMsg))
      else
        match parseConnString cs with
        | none => (s, .error (.valueError "not enough values to unpack"))
        | some q =>
          if q.1 ≠ "mysql+mysqlconnector" then
            (s, .error (.notImplementedError MySQL.engineMsg))
          else
            ({ connected := true, engine := some cs }, .ok ())

/-- The spec's abstract `ConfigurationError` kind: the exceptions
`_connect` raises for an empty/non-string descriptor (`TypeError` with
`connMsg`), a malformed descriptor (the `ValueError` from tuple unpacking),
or an unsupported protocol tag (`NotImplementedError`). -/
def PyExn.isConfigurationError : PyExn → Bool
  | .typeError m => m == MySQL.connMsg
  | .valueError _ => true
  | .notImplementedError _ => true

/-- A descriptor the spec calls empty, malformed, or of unsupported
protocol: the empty string, a string the code's splits cannot unpack, or
one whose protocol tag is not `mysql+mysqlconnector`. -/
def MySQL.badDescriptor (cs : String) : Bool :=
  cs == "" ||
    (match parseConnString cs with
     | none => true
     | some q => q.1 != "mysql+mysqlconnector")

/-- Abstract model of the SQL engine the gateway talks to: the set of
existing table names (executing a well-formed `CREATE TABLE` statement
registers the table), a `rowcount` oracle giving the `ResultProxy.rowcount`
of an executed statement, and a `query` oracle giving the rows and column
keys a `SELECT` returns. -/
structure Database where
  tables : List String
  rowcount : String → Int
  query : String → List (List Value) × List String

/-- Registering a freshly created table in the engine model. -/
def Database.register (db : Database) (name : String) : Database :=
  { db with tables := name :: db.tables }

/-- The filesystem model: an association list from path to the lines of the
file at that path. -/
def FsT : Type := List (String × List String)

/-- Writing (or overwriting) a file. -/
def fsWrite (fs : FsT) (path : String) (lines : List String) : FsT :=
  (path, lines) :: List.filter (fun p => p.1 != path) fs

/-- `os.remove`. -/
def fsRemove (fs : FsT) (path : String) : FsT :=
  List.filter (fun p => p.1 != path) fs

/-- Whether a file exists at `path`. -/
def fsHas (fs : FsT) (path : String) : Bool :=
  List.any fs (fun p => p.1 == path)

/-- The `table` argument of the gateway operations: a DataFrame, a Python
string (a bare table name), or a value of any other type. -/
inductive TableArg where
  | df : DataFrame → TableArg
  | name : String → TableArg
  | other : TableArg
deriving DecidableEq, Repr

/-- The `conditions` argument of `select`: a string, a list of strings, or
a value of any other type. -/
inductive CondArg where
  | cstr : String → CondArg
  | clist : List String → CondArg
  | cother : CondArg
deriving DecidableEq, Repr

/-- The `index` argument of `update`: a Python list, or anything else
(including the default `None`). -/
inductive IndexArg where
  | ilist : List String → IndexArg
  | iother : IndexArg
deriving DecidableEq, Repr

/-- Outcome of one classmethod call: final class state, final engine state,
final filesystem, the log of file writes performed, the SQL statements
executed against the engine in order, and the returned value or the
exception raised. -/
structure MySQLRun (α : Type) where
  state : MySQLState
  db : Database
  fs : FsT
  fwrites : List (String × List String)
  stmts : List String
  result : Except PyExn α

/-- `MySQL.check_for_table`'s engine query
(`engine.dialect.has_table(engine, table)`), as a pure lookup; the
classmethod itself first runs `_connect`, which is a no-op at the places
where operations call it internally (they are already connected). -/
def MySQL.check_for_table (db : Database) (table : String) : Bool :=
  db.tables.contains table

/-- The `CREATE TABLE` statement `MySQL.create` assembles for a DataFrame:
`sql = "CREATE TABLE"`, then `" {0} ("`, then one `"{0} {1}, "` per column
using `conversion_map`, then `sql[:-2] + ')'`. -/
def MySQL.createSql (t : DataFrame) : String :=
  pySliceDrop 2
    (t.columns.foldl (fun sql c => sql ++ (c.1 ++ " " ++ MySQL.conversion_map c.2 ++ ", "))
      ("CREATE TABLE " ++ t.name ++ " ("))
  ++ ")"

/-- `MySQL.create`: after `_connect`, starts from the text `"CREATE TABLE"`
and completes it only when the argument is a DataFrame; the (possibly
incomplete) text is then submitted to the engine.  Executing a well-formed
`CREATE TABLE` registers the table in the engine model; the incomplete text
`"CREATE TABLE"` registers nothing. -/
def MySQL.createRun (table : TableArg) (conn_string : ConnArg)
    (s : MySQLState) (db : Database) (fs : FsT) : MySQLRun Unit :=
  let s' := (MySQL.connectRun conn_string s).1
  match (MySQL.connectRun conn_string s).2 with
  | .error e => ⟨s', db, fs, [], [], .error e⟩
  | .ok _ =>
    match table with
    | .df t => ⟨s', db.register t.name, fs, [], [MySQL.createSql t], .ok ()⟩
    | _ => ⟨s', db, fs, [], ["CREATE TABLE"], .ok ()⟩

/-- The column list of `select` on a DataFrame argument: `"SELECT"`, one
`" {0},"` per label, then `sql[:-1]` and `" FROM {0}"`. -/
def MySQL.selectSqlDf (t : DataFrame) : String :=
  pySliceDrop 1 (t.columns.foldl (fun sql c => sql ++ (" " ++ c.1 ++ ",")) "SELECT")
  ++ " FROM " ++ t.name

/-- The `WHERE` clause appended by `select` from its `conditions`
argument. -/
def MySQL.selectWhere (conditions : CondArg) : String :=
  match conditions with
  | .cstr c => if c = "" then "" else " WHERE " ++ c
  | .clist cs =>
    if cs.length > 0 then
      " WHERE" ++ pySliceDrop 1 (cs.foldl (fun sql c => sql ++ (" " ++ c ++ ",")) "")
    else ""
  | .cother => ""

/-- `MySQL.select`: builds the statement, executes it, and materializes the
result set into a DataFrame whose columns come from `ResultProxy.keys()`.
A `table` argument that is neither a string nor a DataFrame raises
`TypeError` before anything is executed. -/
def MySQL.selectRun (table : TableArg) (conn_string : ConnArg) (conditions : CondArg)
    (s : MySQLState) (db : Database) (fs : FsT) : MySQLRun DataFrame :=
  let s' := (MySQL.connectRun conn_string s).1
  match (MySQL.connectRun conn_string s).2 with
  | .error e => ⟨s', db, fs, [], [], .error e⟩
  | .ok _ =>
    match table with
    | .name n =>
      let sql := "SELECT" ++ (" " ++ "*" ++ " FROM " ++ n) ++ MySQL.selectWhere conditions
      let q := db.query sql
      ⟨s', db, fs, [], [sql],
       .ok ⟨"", q.2.map (fun k => (k, Dtype.object)), q.1.enum⟩⟩
    | .df t =>
      let sql := MySQL.selectSqlDf t ++ MySQL.selectWhere conditions
      let q := db.query sql
      ⟨s', db, fs, [], [sql],
       .ok ⟨"", q.2.map (fun k => (k, Dtype.object)), q.1.enum⟩⟩
    | .other => ⟨s', db, fs, [], [], .error (.typeError "table must be a string or DataFrame.")⟩

/-- Rendering of one value inside an `INSERT … VALUES` list: string values
get single quotes, any other value is `"{0}".format(value)`. -/
def MySQL.insertVal : Value → String
  | .vstr v => "'" ++ v ++ "'"
  | .vnum n => toString n

/-- The statement head `INSERT INTO <name> (<cols>)` that `insert`
assembles: `"INSERT INTO"`, `" {0}"`, `' ('`, one `"{0}, "` per label,
`sql[:-2]`, `')'`. -/
def MySQL.insertColsSql (t : DataFrame) : String :=
  pySliceDrop 2
    (t.columns.foldl (fun sql c => sql ++ (c.1 ++ ", "))
      ("INSERT INTO " ++ t.name ++ " ("))
  ++ ")"

/-- One full `INSERT` statement for a row: the head, `" VALUES ("`, one
rendered value plus `", "` each, `sql_insert[:-2] + ')'`. -/
def MySQL.insertStmt (head : String) (r : List Value) : String :=
  pySliceDrop 2 (r.foldl (fun sql v => sql ++ (MySQL.insertVal v ++ ", ")) (head ++ " VALUES ("))
  ++ ")"

/-- The row filter of `insert`: `rows is None or index in rows`. -/
def MySQL.rowSelected (rows : Option (List Nat)) (p : Nat × List Value) : Bool :=
  match rows with
  | none => true
  | some l => decide (p.1 ∈ l)

/-- `MySQL.insert`: after `_connect`, a non-DataFrame raises `TypeError`;
otherwise the table is created when `check_for_table` says it is missing,
then one `INSERT` statement per selected row is executed and the
`rowcount`s are summed. -/
def MySQL.insertRun (table : TableArg) (conn_string : ConnArg) (rows : Option (List Nat))
    (s : MySQLState) (db : Database) (fs : FsT) : MySQLRun Int :=
  let s' := (MySQL.connectRun conn_string s).1
  match (MySQL.connectRun conn_string s).2 with
  | .error e => ⟨s', db, fs, [], [], .error e⟩
  | .ok _ =>
    match table with
    | .df t =>
      let pre := if MySQL.check_for_table db t.name then ([] : List String)
                 else [MySQL.createSql t]
      let db1 := if MySQL.check_for_table db t.name then db else db.register t.name
      let head := MySQL.insertColsSql t
      let stmts := (t.rows.filter (MySQL.rowSelected rows)).map
        (fun p => MySQL.insertStmt head p.2)
      let matched := stmts.foldl (fun acc st => acc + db1.rowcount st) 0
      ⟨s', db1, fs, [], pre ++ stmts, .ok matched⟩
    | _ => ⟨s', db, fs, [], [], .error (.typeError "table must be a DataFrame.")⟩

/-- One `" {0}='{1}',"` / `" {0}={1},"` fragment of `update`'s `SET`
list. -/
def MySQL.updFrag (label : String) : Value → String
  | .vstr v => " " ++ label ++ "='" ++ v ++ "',"
  | .vnum n => " " ++ label ++ "=" ++ toString n ++ ","

/-- One `" {0}='{1}' and"` / `" {0}={1} and"` fragment of `update`'s
`WHERE` clause. -/
def MySQL.condFrag (label : String) : Value → String
  | .vstr v => " " ++ label ++ "='" ++ v ++ "' and"
  | .vnum n => " " ++ label ++ "=" ++ toString n ++ " and"

/-- The `(sql_updates, sql_conditions)` pair `update` accumulates over the
columns of one row; a column goes to the `WHERE` side exactly when its
label is in the key-column list.  `row[id]` positions match labels because
a DataFrame row has one value per column. -/
def MySQL.updateParts (keyCols : List String) (cols : List (String × Dtype))
    (r : List Value) : String × String :=
  (cols.zip r).foldl
    (fun acc p =>
      if p.1.1 ∈ keyCols then (acc.1, acc.2 ++ MySQL.condFrag p.1.1 p.2)
      else (acc.1 ++ MySQL.updFrag p.1.1 p.2, acc.2))
    ("", "")

/-- One full `UPDATE` statement of `update`: `"UPDATE {0} SET"`, the
`SET` list with its trailing comma sliced off, and — when the conditions
string is longer than one character — `' WHERE' + sql_conditions[:-4]`. -/
def MySQL.updateStmt (tname : String) (keyCols : List String)
    (cols : List (String × Dtype)) (r : List Value) : String :=
  let parts := MySQL.updateParts keyCols cols r
  ("UPDATE " ++ tname ++ " SET") ++ pySliceDrop 1 parts.1
  ++ (if parts.2.length > 1 then " WHERE" ++ pySliceDrop 4 parts.2 else "")

/-- `MySQL.update`: after `_connect`, a non-DataFrame raises `TypeError`;
a DataFrame with a key-column argument that is not a list executes nothing
and returns 0 (the `isinstance(index, list)` branch is simply skipped);
otherwise one `UPDATE` statement per row (`table.values` drops the index)
is executed and the `rowcount`s are summed. -/
def MySQL.updateRun (table : TableArg) (conn_string : ConnArg) (index : IndexArg)
    (s : MySQLState) (db : Database) (fs : FsT) : MySQLRun Int :=
  let s' := (MySQL.connectRun conn_string s).1
  match (MySQL.connectRun conn_string s).2 with
  | .error e => ⟨s', db, fs, [], [], .error e⟩
  | .ok _ =>
    match table with
    | .df t =>
      match index with
      | .ilist keyCols =>
        let stmts := t.rows.map (fun p => MySQL.updateStmt t.name keyCols t.columns p.2)
        let matched := stmts.foldl (fun acc st => acc + db.rowcount st) 0
        ⟨s', db, fs, [], stmts, .ok matched⟩
      | .iother => ⟨s', db, fs, [], [], .ok 0⟩
    | _ => ⟨s', db, fs, [], [], .error (.typeError "table must be a DataFrame.")⟩

/-- The staging path used by `bulk_insert`. -/
def MySQL.csvPath : String := "temp.csv"

/-- Whether pandas `to_csv` with default minimal quoting quotes a cell:
the cell contains the separator, a double quote, or a line break. -/
def csvNeedsQuote (s : String) : Bool :=
  s.data.any (fun c => c == ';' || c == '"' || c == '\n' || c == '\r')

/-- One CSV cell as pandas `to_csv(sep=';')` writes it (numbers plain,
strings quoted only when needed, inner quotes doubled). -/
def csvCell : Value → String
  | .vnum n => toString n
  | .vstr v =>
    if csvNeedsQuote v then
      "\"" ++ String.mk (v.data.flatMap (fun c => if c == '"' then ['"', '"'] else [c])) ++ "\""
    else v

/-- The lines of the staging file `bulk_insert` writes with
`to_csv(csv_path, sep=';', header=False, index=False)`: one `;`-joined
line per row, no header, no index column. -/
def MySQL.toCsvLines (t : DataFrame) : List String :=
  t.rows.map (fun p => joinSep ";" (p.2.map csvCell))

/-- The engine-native bulk-load statement `bulk_insert` executes. -/
def MySQL.loadSql (t : DataFrame) : String :=
  "LOAD DATA LOCAL INFILE '" ++ MySQL.csvPath ++ "' INTO TABLE " ++ t.name
  ++ " FIELDS TERMINATED BY ';'"

/-- `MySQL.bulk_insert`: after `_connect`, a non-DataFrame raises
`TypeError` (before any file is written); otherwise the rows are staged to
`temp.csv`, the table is created when missing, the `LOAD DATA` statement is
executed, its `rowcount` is the return value, and `os.remove` deletes the
staging file before returning. -/
def MySQL.bulkInsertRun (table : TableArg) (conn_string : ConnArg)
    (s : MySQLState) (db : Database) (fs : FsT) : MySQLRun Int :=
  let s' := (MySQL.connectRun conn_string s).1
  match (MySQL.connectRun conn_string s).2 with
  | .error e => ⟨s', db, fs, [], [], .error e⟩
  | .ok _ =>
    match table with
    | .df t =>
      let fs1 := fsWrite fs MySQL.csvPath (MySQL.toCsvLines t)
      let pre := if MySQL.check_for_table db t.name then ([] : List String)
                 else [MySQL.createSql t]
      let db1 := if MySQL.check_for_table db t.name then db else db.register t.name
      let matched := db1.rowcount (MySQL.loadSql t)
      ⟨s', db1, fsRemove fs1 MySQL.csvPath, [(MySQL.csvPath, MySQL.toCsvLines t)],
       pre ++ [MySQL.loadSql t], .ok matched⟩
    | _ => ⟨s', db, fs, [], [], .error (.typeError "table must be a DataFrame.")⟩

/-- `MySQL.delete`: builds `DELETE FROM <name>` plus an optional `WHERE`,
executes it, and returns the statement's `rowcount`. -/
def MySQL.deleteRun (table : String) (conn_string : ConnArg) (conditions : String)
    (s : MySQLState) (db : Database) (fs : FsT) : MySQLRun Int :=
  let s' := (MySQL.connectRun conn_string s).1
  match (MySQL.connectRun conn_string s).2 with
  | .error e => ⟨s', db, fs, [], [], .error e⟩
  | .ok _ =>
    let sql := "DELETE FROM " ++ table
      ++ (if conditions = "" then "" else " WHERE " ++ conditions)
    ⟨s', db, fs, [], [sql], .ok (db.rowcount sql)⟩


/-- Environment-variable assignment `env[k] = v` on a copied environment
dictionary. -/
def setEnv (env : List (String × String)) (k v : String) : List (String × String) :=
  (k, v) :: List.filter (fun p => p.1 != k) env

/-- Observable events of one `Oracle.load_data` call.  `waitEv` is the
event a `wait()`/exit-status check on the subprocess would produce; the
code never produces it. -/
inductive LoadEv where
  | writeFileEv : String → String → LoadEv
  | writeCsvEv : String → List String → LoadEv
  | popenEv : List String → List (String × String) → LoadEv
  | logErrorEv : String → LoadEv
  | waitEv : LoadEv
deriving DecidableEq, Repr

/-- Outcome of `subprocess.Popen`: the subprocess was launched (carrying
the exit code it will eventually produce, which the code never observes);
or launching failed with a `subprocess.SubprocessError`, the only class
the code's `except` clause catches; or launching failed with an `OSError`
(typically `FileNotFoundError` when the loader executable is missing from
the overridden search path) — `OSError` is not a subclass of
`subprocess.SubprocessError`, so the code does not catch it. -/
inductive LaunchOutcome where
  | launched : Int → LaunchOutcome
  | subprocessError : String → LaunchOutcome
  | osError : String → LaunchOutcome
deriving DecidableEq, Repr

/-- Whether an event is a logged error. -/
def LoadEv.isLogError : LoadEv → Bool
  | .logErrorEv _ => true
  | _ => false

/-- The control-file text `load_data` writes. -/
def Oracle.ctlContent (output_path schema mode : String) (t : DataFrame) : String :=
  "LOAD DATA\n" ++ "CHARACTERSET UTF8\n"
  ++ "INFILE '" ++ output_path ++ t.name ++ ".dat'\n"
  ++ mode ++ "\n"
  ++ "INTO TABLE " ++ schema ++ "." ++ t.name ++ "\n"
  ++ "FIELDS TERMINATED BY ';' " ++ "OPTIONALLY ENCLOSED BY '\"'\n"
  ++ "TRAILING NULLCOLS\n"
  ++ "(" ++ joinSep "," (t.columns.map Prod.fst) ++ ")"

/-- One CSV cell as `to_csv(..., quoting=csv.QUOTE_NONNUMERIC,
doublequote=True)` writes it: every non-numeric value is double-quoted
with inner quotes doubled. -/
def csvCellQuoted : Value → String
  | .vnum n => toString n
  | .vstr v =>
    "\"" ++ String.mk (v.data.flatMap (fun c => if c == '"' then ['"', '"'] else [c])) ++ "\""

/-- The lines of the `.dat` data file `load_data` writes. -/
def Oracle.datLines (t : DataFrame) : List String :=
  t.rows.map (fun p => joinSep ";" (p.2.map csvCellQuoted))

/-- The argument vector `shlex.split` produces from the `sqlldr` command
line (the command contains no embedded whitespace inside a quoted piece, so
the split is on spaces with shell quotes stripped). -/
def Oracle.sqlldrArgs (user password host port service output_path : String)
    (t : DataFrame) : List String :=
  ["sqlldr",
   user ++ "/" ++ password ++ "@" ++ host ++ ":" ++ port ++ "/" ++ service,
   "control=" ++ output_path ++ t.name ++ ".ctl",
   "log=" ++ output_path ++ t.name ++ ".log",
   "bad=" ++ output_path ++ t.name ++ ".bad"]

/-- `Oracle.load_data`: write the control file and the data file, override
`PATH` and `LD_LIBRARY_PATH` on a copy of the environment, launch `sqlldr`
with `subprocess.Popen`, and return.  The subprocess is never joined and
its exit status never read.  The `except` clause catches only
`subprocess.SubprocessError`, which is logged rather than re-raised; an
`OSError` raised by `Popen` (e.g. executable not found) is not a
`SubprocessError`, so it propagates to the caller with nothing logged. -/
def Oracle.loadDataRun (user password host port service schema : String)
    (t : DataFrame) (output_path os_path os_ld_library_path mode : String)
    (baseEnv : List (String × String)) (launch : LaunchOutcome) :
    List LoadEv × Except String Unit :=
  let env := setEnv (setEnv baseEnv "PATH" os_path) "LD_LIBRARY_PATH" os_ld_library_path
  let args := Oracle.sqlldrArgs user password host port service output_path t
  let writes := [LoadEv.writeFileEv (output_path ++ t.name ++ ".ctl")
                   (Oracle.ctlContent output_path schema mode t),
                 LoadEv.writeCsvEv (output_path ++ t.name ++ ".dat")
                   (Oracle.datLines t)]
  match launch with
  | .launched _ => (writes ++ [.popenEv args env], .ok ())
  | .subprocessError m => (writes ++ [.logErrorEv m], .ok ())
  | .osError m => (writes, .error m)

/-! ### Helper lemmas -/

/-- Python's `s[:-n]` undoes appending an `n`-character tail. -/
theorem pySliceDrop_append (s t : String) :
    pySliceDrop t.length (s ++ t) = s := by
  unfold pySliceDrop
  rw [String.data_append]
  have hlen : t.length = t.data.length := rfl
  rw [hlen, List.length_append, Nat.add_sub_cancel, List.take_left]

/-- The accumulate-then-slice idiom the code uses
(`sql += g x ++ sep` in a loop, then `sql[:-len(sep)]`) equals joining the
pieces with the separator. -/
theorem foldl_sep_slice (sep : String) (g : α → String) :
    ∀ (l : List α) (base : String), l ≠ [] →
      pySliceDrop sep.length (l.foldl (fun sql x => sql ++ (g x ++ sep)) base)
        = base ++ joinSep sep (l.map g) := by
  intro l
  induction l with
  | nil => intro base h; exact absurd rfl h
  | cons x xs ih =>
    intro base _
    cases xs with
    | nil =>
      show pySliceDrop sep.length (base ++ (g x ++ sep)) = base ++ joinSep sep [g x]
      rw [← String.append_assoc, pySliceDrop_append]
      rfl
    | cons y ys =>
      show pySliceDrop sep.length
          (((y :: ys).foldl (fun sql z => sql ++ (g z ++ sep)) (base ++ (g x ++ sep))))
        = base ++ joinSep sep (g x :: (y :: ys).map g)
      rw [ih (base ++ (g x ++ sep)) (by simp)]
      simp [joinSep, String.append_assoc]

/-- Specialization to the `", "` separator and two-character slice used by
`create` and `insert`. -/
theorem foldl_comma_slice (g : α → String) (l : List α) (base : String) (h : l ≠ []) :
    pySliceDrop 2 (l.foldl (fun sql x => sql ++ (g x ++ ", ")) base)
      = base ++ joinComma (l.map g) := by
  have h2 : (", " : String).length = 2 := rfl
  have hj : ∀ m : List String, joinSep ", " m = joinComma m := by
    intro m
    induction m with
    | nil => rfl
    | cons a as iha =>
      cases as with
      | nil => rfl
      | cons b bs =>
        show a ++ ", " ++ joinSep ", " (b :: bs) = a ++ ", " ++ joinComma (b :: bs)
        rw [iha]
  rw [← h2, foldl_sep_slice ", " g l base h, hj]

/-- A loop accumulating `acc + f x` from 0 computes the sum of the mapped
list. -/
theorem foldl_add_sum (f : α → Int) (l : List α) :
    l.foldl (fun acc x => acc + f x) 0 = (l.map f).sum := by
  have h : ∀ (l : List α) (init : Int),
      l.foldl (fun acc x => acc + f x) init = init + (l.map f).sum := by
    intro l
    induction l with
    | nil => intro init; simp
    | cons x xs ih =>
      intro init
      show xs.foldl (fun acc y => acc + f y) (init + f x) = init + (f x :: xs.map f).sum
      rw [ih, List.sum_cons, Int.add_assoc]
  rw [h, Int.zero_add]

/-- After `fsRemove fs p` the path `p` is gone. -/
theorem fsHas_fsRemove (fs : FsT) (p : String) :
    fsHas (fsRemove fs p) p = false := by
  unfold fsHas fsRemove
  induction fs with
  | nil => rfl
  | cons e es ih =>
    by_cases h : e.1 = p
    · simp [h, ih]
    · simp [h, ih]

/-- `_connect` on an already-connected state does nothing, for any
descriptor argument. -/
theorem connectRun_of_connected (d : ConnArg) (s : MySQLState) (h : s.connected = true) :
    MySQL.connectRun d s = (s, .ok ()) := by
  unfold MySQL.connectRun
  rw [h]
  rfl

/-- If `_connect` succeeds, the resulting state is connected. -/
theorem connected_of_connectRun_ok (d : ConnArg) (s : MySQLState)
    (h : (MySQL.connectRun d s).2 = .ok ()) :
    (MySQL.connectRun d s).1.connected = true := by
  unfold MySQL.connectRun at h ⊢
  by_cases hc : s.connected
  · rw [if_pos hc]; exact hc
  · rw [if_neg hc] at h ⊢
    cases d with
    | nonStr => simp at h
    | str cs =>
      dsimp only at h ⊢
      by_cases he : cs = ""
      · rw [if_pos he] at h; simp at h
      · rw [if_neg he] at h ⊢
        cases hp : parseConnString cs with
        | none => rw [hp] at h; simp at h
        | some q =>
          rw [hp] at h
          dsimp only at h ⊢
          by_cases hq : q.1 ≠ "mysql+mysqlconnector"
          · rw [if_pos hq] at h; simp at h
          · rw [if_neg hq]

/-- A sample engine model for witnesses. -/
def sampleDb : Database := ⟨[], fun _ => 0, fun _ => ([], [])⟩

/-- A sample engine model in which table `t` already exists. -/
def sampleDbT : Database := ⟨["t"], fun _ => 1, fun _ => ([], [])⟩

/-- A well-formed connection descriptor. -/
def sampleConn : String := "mysql+mysqlconnector://u:p@h:1/d"

/-- A sample two-column DataFrame named `t` with two rows. -/
def sampleDf : DataFrame :=
  ⟨"t", [("id", .int64), ("label", .object)],
   [(0, [.vnum 1, .vstr "a"]), (1, [.vnum 2, .vstr "b"])]⟩

/-! ### Claim theorems -/

/-- C8: `_connect` is idempotent: while the class is already connected, a
second call with any descriptor (even an unparsable one) is a no-op — the
state (engine handle and connected flag) is returned unchanged and no
exception is raised, because the descriptor is neither parsed nor
validated. -/
theorem mysql_connect_idempotent (d : ConnArg) (s : MySQLState)
    (h : s.connected = true) :
    MySQL.connectRun d s = (s, .ok ()) :=
  connectRun_of_connected d s h

/-- Witness for C8 at a connected state and a malformed descriptor. -/
theorem mysql_connect_idempotent_witness :
    (MySQLState.mk true (some sampleConn)).connected = true ∧
    MySQL.connectRun (.str "not a descriptor") (MySQLState.mk true (some sampleConn))
      = (MySQLState.mk true (some sampleConn), .ok ()) :=
  ⟨rfl, mysql_connect_idempotent (.str "not a descriptor") _ rfl⟩

/-- C2: when not already connected, `_connect` on an empty, malformed, or
unsupported-protocol descriptor leaves the class state unchanged (no engine
handle is established) and raises one of the exceptions the spec groups
under `ConfigurationError`. -/
theorem mysql_connect_bad_descriptor (cs : String) (s : MySQLState)
    (hnc : s.connected = false) (hbad : MySQL.badDescriptor cs = true) :
    (MySQL.connectRun (.str cs) s).1 = s ∧
    ∃ e, (MySQL.connectRun (.str cs) s).2 = .error e ∧
      e.isConfigurationError = true := by
  unfold MySQL.connectRun
  rw [hnc]
  simp only [Bool.false_eq_true, if_false]
  unfold MySQL.badDescriptor at hbad
  by_cases he : cs = ""
  · rw [if_pos he]
    exact ⟨rfl, ⟨.typeError MySQL.connMsg, rfl, by simp [PyExn.isConfigurationError]⟩⟩
  · rw [if_neg he]
    cases hp : parseConnString cs with
    | none => exact ⟨rfl, ⟨.valueError "not enough values to unpack", rfl, rfl⟩⟩
    | some q =>
      have hq : q.1 ≠ "mysql+mysqlconnector" := by
        rw [hp] at hbad
        simp [he] at hbad
        exact hbad
      dsimp only
      rw [if_pos hq]
      exact ⟨rfl, ⟨.notImplementedError MySQL.engineMsg, rfl, rfl⟩⟩

/-- Witness for C2 at a malformed descriptor. -/
theorem mysql_connect_bad_descriptor_witness :
    (MySQLState.mk false none).connected = false ∧
    MySQL.badDescriptor "garbage" = true ∧
    ((MySQL.connectRun (.str "garbage") (MySQLState.mk false none)).1
        = MySQLState.mk false none ∧
     ∃ e, (MySQL.connectRun (.str "garbage") (MySQLState.mk false none)).2 = .error e ∧
       e.isConfigurationError = true) :=
  ⟨rfl, by decide, mysql_connect_bad_descriptor "garbage" _ rfl (by decide)⟩

/-- C9: `update` on a DataFrame whose key-column argument is not a list
(including the default `None`) executes no SQL statement, returns 0, and
leaves the database unchanged. -/
theorem mysql_update_non_list_index (t : DataFrame) (conn : ConnArg)
    (s : MySQLState) (db : Database) (fs : FsT)
    (hconn : (MySQL.connectRun conn s).2 = .ok ()) :
    (MySQL.updateRun (.df t) conn .iother s db fs).result = .ok 0 ∧
    (MySQL.updateRun (.df t) conn .iother s db fs).stmts = [] ∧
    (MySQL.updateRun (.df t) conn .iother s db fs).db = db := by
  simp [MySQL.updateRun, hconn]

/-- Witness for C9. -/
theorem mysql_update_non_list_index_witness :
    (MySQL.connectRun (.str sampleConn) (MySQLState.mk true none)).2 = .ok () ∧
    ((MySQL.updateRun (.df sampleDf) (.str sampleConn) .iother
        (MySQLState.mk true none) sampleDb []).result = .ok 0 ∧
     (MySQL.updateRun (.df sampleDf) (.str sampleConn) .iother
        (MySQLState.mk true none) sampleDb []).stmts = [] ∧
     (MySQL.updateRun (.df sampleDf) (.str sampleConn) .iother
        (MySQLState.mk true none) sampleDb []).db = sampleDb) :=
  ⟨rfl, mysql_update_non_list_index sampleDf (.str sampleConn) _ sampleDb [] rfl⟩

/-- C10: `create` on an argument that is not a DataFrame raises no type
error: the statement-assembly branch is skipped and the incomplete text
`CREATE TABLE` is submitted to the engine for execution. -/
theorem mysql_create_non_dataframe (table : TableArg) (conn : ConnArg)
    (s : MySQLState) (db : Database) (fs : FsT)
    (hshape : ∀ t, table ≠ TableArg.df t)
    (hconn : (MySQL.connectRun conn s).2 = .ok ()) :
    (MySQL.createRun table conn s db fs).stmts = ["CREATE TABLE"] ∧
    (MySQL.createRun table conn s db fs).result = .ok () := by
  cases table with
  | df t => exact absurd rfl (hshape t)
  | name n => simp [MySQL.createRun, hconn]
  | other => simp [MySQL.createRun, hconn]

/-- Witness for C10 at a non-DataFrame argument. -/
theorem mysql_create_non_dataframe_witness :
    (MySQL.connectRun (.str sampleConn) (MySQLState.mk true none)).2 = .ok () ∧
    ((MySQL.createRun .other (.str sampleConn)
        (MySQLState.mk true none) sampleDb []).stmts = ["CREATE TABLE"] ∧
     (MySQL.createRun .other (.str sampleConn)
        (MySQLState.mk true none) sampleDb []).result = .ok ()) :=
  ⟨rfl, mysql_create_non_dataframe .other (.str sampleConn) _ sampleDb []
    (fun t h => by cases h) rfl⟩

/-- C6 (counterexample): `Popen`'s executable-not-found launch failure is
an `OSError`, not a `subprocess.SubprocessError`, so the `except` clause
does not catch it: `load_data` raises to the caller and nothing is
logged — refuting "loadData ... raises nothing to the caller" and "the
failure is logged" for that launch-failure path. -/
theorem oracle_load_data_oserror_cex :
    (Oracle.loadDataRun "u" "p" "h" "1521" "svc" "S" sampleDf "/tmp/" "/bin" "/lib"
        "APPEND" [("HOME", "/root")] (.osError "FileNotFoundError: sqlldr")).2
      = .error "FileNotFoundError: sqlldr" ∧
    ((Oracle.loadDataRun "u" "p" "h" "1521" "svc" "S" sampleDf "/tmp/" "/bin" "/lib"
        "APPEND" [("HOME", "/root")] (.osError "FileNotFoundError: sqlldr")).1.any
      LoadEv.isLogError) = false := by
  exact ⟨rfl, rfl⟩

/-- C6 (amended): `Oracle.load_data` never waits on the subprocess, and
its behaviour never depends on the subprocess's eventual exit code.  When
the launch succeeds, the subprocess is launched with the overridden
environment and the call returns normally with nothing logged (loader
failures are invisible); a launch failure of the `SubprocessError` kind
the code catches is logged and the call still returns normally; but a
launch failure raised as an `OSError` is not caught: it propagates to the
caller with nothing logged. -/
theorem oracle_load_data_fire_and_forget
    (user password host port service schema : String) (t : DataFrame)
    (output_path os_path os_ld mode : String) (baseEnv : List (String × String))
    (launch : LaunchOutcome) :
    LoadEv.waitEv ∉ (Oracle.loadDataRun user password host port service schema t
        output_path os_path os_ld mode baseEnv launch).1 ∧
    (∀ c₁ c₂ : Int,
      Oracle.loadDataRun user password host port service schema t
          output_path os_path os_ld mode baseEnv (.launched c₁)
        = Oracle.loadDataRun user password host port service schema t
            output_path os_path os_ld mode baseEnv (.launched c₂)) ∧
    (match launch with
     | .launched _ =>
       (Oracle.loadDataRun user password host port service schema t
           output_path os_path os_ld mode baseEnv launch).2 = .ok () ∧
       LoadEv.popenEv (Oracle.sqlldrArgs user password host port service output_path t)
           (setEnv (setEnv baseEnv "PATH" os_path) "LD_LIBRARY_PATH" os_ld)
         ∈ (Oracle.loadDataRun user password host port service schema t
             output_path os_path os_ld mode baseEnv launch).1 ∧
       (∀ m, LoadEv.logErrorEv m ∉ (Oracle.loadDataRun user password host port service
           schema t output_path os_path os_ld mode baseEnv launch).1)
     | .subprocessError m =>
       (Oracle.loadDataRun user password host port service schema t
           output_path os_path os_ld mode baseEnv launch).2 = .ok () ∧
       LoadEv.logErrorEv m ∈ (Oracle.loadDataRun user password host port service schema t
           output_path os_path os_ld mode baseEnv launch).1
     | .osError m =>
       (Oracle.loadDataRun user password host port service schema t
           output_path os_path os_ld mode baseEnv launch).2 = .error m ∧
       (∀ m2, LoadEv.logErrorEv m2 ∉ (Oracle.loadDataRun user password host port service
           schema t output_path os_path os_ld mode baseEnv launch).1)) := by
  cases launch with
  | launched c =>
    refine ⟨?_, fun c₁ c₂ => rfl, rfl, ?_, ?_⟩
    · simp [Oracle.loadDataRun]
    · simp [Oracle.loadDataRun]
    · intro m; simp [Oracle.loadDataRun]
  | subprocessError m =>
    refine ⟨?_, fun c₁ c₂ => rfl, rfl, ?_⟩
    · simp [Oracle.loadDataRun]
    · simp [Oracle.loadDataRun]
  | osError m =>
    refine ⟨?_, fun c₁ c₂ => rfl, rfl, ?_⟩
    · simp [Oracle.loadDataRun]
    · intro m2; simp [Oracle.loadDataRun]

/-- Witness for the amended C6 on a caught launch failure. -/
theorem oracle_load_data_fire_and_forget_witness :
    (Oracle.loadDataRun "u" "p" "h" "1521" "svc" "S" sampleDf "/tmp/" "/bin" "/lib"
        "APPEND" [("HOME", "/root")] (.subprocessError "launch failed")).2 = .ok () ∧
    LoadEv.logErrorEv "launch failed"
      ∈ (Oracle.loadDataRun "u" "p" "h" "1521" "svc" "S" sampleDf "/tmp/" "/bin" "/lib"
          "APPEND" [("HOME", "/root")] (.subprocessError "launch failed")).1 :=
  ⟨(oracle_load_data_fire_and_forget "u" "p" "h" "1521" "svc" "S" sampleDf "/tmp/" "/bin"
      "/lib" "APPEND" [("HOME", "/root")] (.subprocessError "launch failed")).2.2.1,
   (oracle_load_data_fire_and_forget "u" "p" "h" "1521" "svc" "S" sampleDf "/tmp/" "/bin"
      "/lib" "APPEND" [("HOME", "/root")] (.subprocessError "launch failed")).2.2.2⟩

/-- Merging two adjacent literal pieces inside a right-associated
concatenation of character lists. -/
theorem data_merge (a b c : String) (h : a ++ b = c) (l : List Char) :
    a.data ++ (b.data ++ l) = c.data ++ l := by
  rw [← List.append_assoc, ← h]
  rfl

/-- The statement shape the spec describes for one inserted row:
`INSERT INTO <name> (<cols>) VALUES (<vals>)`, string values single-quoted,
other values bare. -/
def MySQL.specInsertStmt (t : DataFrame) (r : List Value) : String :=
  "INSERT INTO " ++ t.name ++ " (" ++ joinComma (t.columns.map Prod.fst)
  ++ ") VALUES (" ++ joinComma (r.map MySQL.insertVal) ++ ")"

/-- The statement `insert` builds by append-and-slice equals the
spec-shaped statement whenever the table has at least one column and the
row at least one value. -/
theorem insertStmt_eq (t : DataFrame) (r : List Value)
    (hc : t.columns ≠ []) (hr : r ≠ []) :
    MySQL.insertStmt (MySQL.insertColsSql t) r = MySQL.specInsertStmt t r := by
  unfold MySQL.insertStmt MySQL.insertColsSql MySQL.specInsertStmt
  rw [foldl_comma_slice (fun c : String × Dtype => c.1) t.columns _ hc,
      foldl_comma_slice MySQL.insertVal r _ hr]
  apply String.ext
  simp only [String.data_append, List.append_assoc]
  rw [data_merge ")" " VALUES (" ") VALUES (" rfl]

/-- What fail-fast means for one run: the type error was raised, no SQL
statement was executed, no file was written, database and filesystem are
untouched, and the class state is exactly the one the implicit `_connect`
produced. -/
def failFast {α : Type} (r : MySQLRun α) (msg : String) (scon : MySQLState)
    (db : Database) (fs : FsT) : Prop :=
  r.result = .error (.typeError msg) ∧ r.stmts = [] ∧ r.db = db ∧ r.fs = fs ∧
  r.fwrites = [] ∧ r.state = scon

/-- C7 (counterexample): `insert` called with a non-DataFrame argument on a
not-yet-connected gateway and a valid descriptor raises the type error, yet
the gateway's state is changed: the implicit `_connect` ran first and
established the engine handle, so the operation does have a partial effect
on the gateway's state. -/
theorem mysql_type_mismatch_state_change_cex :
    (MySQL.insertRun .other (.str sampleConn) none
        (MySQLState.mk false none) sampleDb []).result
      = .error (.typeError "table must be a DataFrame.") ∧
    ¬ (MySQL.insertRun .other (.str sampleConn) none
        (MySQLState.mk false none) sampleDb []).state
      = MySQLState.mk false none := by
  constructor
  · rfl
  · decide

/-- C7 (amended): an operation given an argument of the wrong shape raises
the type-mismatch error before any SQL statement is executed and with no
effect on the database or the filesystem; the only state change that may
precede the error is the connection establishment performed by the implicit
`_connect` (assumed here to succeed — its own failure would be raised
instead of the type error). -/
theorem mysql_type_mismatch_fail_fast (table : TableArg) (conn : ConnArg)
    (cond : CondArg) (rows : Option (List Nat)) (index : IndexArg)
    (s : MySQLState) (db : Database) (fs : FsT)
    (hshape : ∀ t, table ≠ TableArg.df t)
    (hconn : (MySQL.connectRun conn s).2 = .ok ()) :
    ((∀ n, table ≠ TableArg.name n) →
      failFast (MySQL.selectRun table conn cond s db fs)
        "table must be a string or DataFrame." (MySQL.connectRun conn s).1 db fs) ∧
    failFast (MySQL.insertRun table conn rows s db fs)
      "table must be a DataFrame." (MySQL.connectRun conn s).1 db fs ∧
    failFast (MySQL.updateRun table conn index s db fs)
      "table must be a DataFrame." (MySQL.connectRun conn s).1 db fs ∧
    failFast (MySQL.bulkInsertRun table conn s db fs)
      "table must be a DataFrame." (MySQL.connectRun conn s).1 db fs := by
  cases table with
  | df t => exact absurd rfl (hshape t)
  | name n =>
    refine ⟨fun hn => absurd rfl (hn n), ?_, ?_, ?_⟩ <;>
      simp [failFast, MySQL.insertRun, MySQL.updateRun, MySQL.bulkInsertRun, hconn]
  | other =>
    refine ⟨fun _ => ?_, ?_, ?_, ?_⟩ <;>
      simp [failFast, MySQL.selectRun, MySQL.insertRun, MySQL.updateRun,
        MySQL.bulkInsertRun, hconn]

/-- Witness for the amended C7. -/
theorem mysql_type_mismatch_fail_fast_witness :
    (MySQL.connectRun (.str sampleConn) (MySQLState.mk true none)).2 = .ok () ∧
    failFast (MySQL.insertRun .other (.str sampleConn) none
        (MySQLState.mk true none) sampleDb [])
      "table must be a DataFrame."
      (MySQL.connectRun (.str sampleConn) (MySQLState.mk true none)).1 sampleDb [] :=
  ⟨rfl,
   (mysql_type_mismatch_fail_fast .other (.str sampleConn) (.cstr "") none .iother
      (MySQLState.mk true none) sampleDb [] (fun t h => by cases h) rfl).2.1⟩

/-- C3: `insert` on a DataFrame executes one `INSERT INTO <name> (<cols>)
VALUES (<vals>)` statement per row whose index passes the optional subset
filter — string values single-quoted, other values bare — and returns the
sum of the per-statement matched-row counts (besides the
create-when-missing preamble). -/
theorem mysql_insert_statements (t : DataFrame) (conn : ConnArg)
    (rows : Option (List Nat)) (s : MySQLState) (db : Database) (fs : FsT)
    (hcols : t.columns ≠ [])
    (hw : ∀ p ∈ t.rows, p.2.length = t.columns.length)
    (hconn : (MySQL.connectRun conn s).2 = .ok ()) :
    (MySQL.insertRun (.df t) conn rows s db fs).stmts
      = (if MySQL.check_for_table db t.name then [] else [MySQL.createSql t])
        ++ (t.rows.filter (MySQL.rowSelected rows)).map
            (fun p => MySQL.specInsertStmt t p.2) ∧
    (MySQL.insertRun (.df t) conn rows s db fs).result
      = .ok (((t.rows.filter (MySQL.rowSelected rows)).map
          (fun p => db.rowcount (MySQL.specInsertStmt t p.2))).sum) := by
  have hmap : (t.rows.filter (MySQL.rowSelected rows)).map
      (fun p => MySQL.insertStmt (MySQL.insertColsSql t) p.2)
      = (t.rows.filter (MySQL.rowSelected rows)).map
          (fun p => MySQL.specInsertStmt t p.2) := by
    apply List.map_congr_left
    intro p hp
    have hpm : p ∈ t.rows := List.mem_of_mem_filter hp
    have hlen := hw p hpm
    have hr : p.2 ≠ [] := by
      intro h0
      apply hcols
      rw [h0] at hlen
      exact (List.length_eq_zero.mp hlen.symm)
    exact insertStmt_eq t p.2 hcols hr
  constructor
  · simp only [MySQL.insertRun, hconn]
    rw [hmap]
  · simp only [MySQL.insertRun, hconn]
    rw [hmap, foldl_add_sum]
    by_cases hct : MySQL.check_for_table db t.name
    · simp [hct]
      rfl
    · simp [hct, Database.register]
      rfl

/-- Witness for C3: two rows inserted into an existing table, with the
second row filtered out by the index subset. -/
theorem mysql_insert_statements_witness :
    sampleDf.columns ≠ [] ∧
    (∀ p ∈ sampleDf.rows, p.2.length = sampleDf.columns.length) ∧
    (MySQL.connectRun (.str sampleConn) (MySQLState.mk true none)).2 = .ok () ∧
    ((MySQL.insertRun (.df sampleDf) (.str sampleConn) (some [0])
        (MySQLState.mk true none) sampleDbT []).stmts
      = (if MySQL.check_for_table sampleDbT sampleDf.name then []
         else [MySQL.createSql sampleDf])
        ++ (sampleDf.rows.filter (MySQL.rowSelected (some [0]))).map
            (fun p => MySQL.specInsertStmt sampleDf p.2) ∧
     (MySQL.insertRun (.df sampleDf) (.str sampleConn) (some [0])
        (MySQLState.mk true none) sampleDbT []).result
      = .ok (((sampleDf.rows.filter (MySQL.rowSelected (some [0]))).map
          (fun p => sampleDbT.rowcount (MySQL.specInsertStmt sampleDf p.2))).sum)) :=
  ⟨by decide, by decide, rfl,
   mysql_insert_statements sampleDf (.str sampleConn) (some [0])
     (MySQLState.mk true none) sampleDbT [] (by decide) (by decide) rfl⟩

/-- C4: `insert` checks table existence first and issues the
`CREATE TABLE` statement only when the table is missing; after a first
`insert` the table exists, so a second `insert` on the resulting state
executes exactly the row statements and never re-issues the create. -/
theorem mysql_insert_create_once (t : DataFrame) (conn : ConnArg)
    (rows : Option (List Nat)) (s : MySQLState) (db : Database) (fs : FsT)
    (hconn : (MySQL.connectRun conn s).2 = .ok ()) :
    (MySQL.insertRun (.df t) conn rows s db fs).stmts
      = (if MySQL.check_for_table db t.name then [] else [MySQL.createSql t])
        ++ (t.rows.filter (MySQL.rowSelected rows)).map
            (fun p => MySQL.insertStmt (MySQL.insertColsSql t) p.2) ∧
    (MySQL.insertRun (.df t) conn rows
        (MySQL.insertRun (.df t) conn rows s db fs).state
        (MySQL.insertRun (.df t) conn rows s db fs).db
        (MySQL.insertRun (.df t) conn rows s db fs).fs).stmts
      = (t.rows.filter (MySQL.rowSelected rows)).map
          (fun p => MySQL.insertStmt (MySQL.insertColsSql t) p.2) := by
  have hstate : (MySQL.insertRun (.df t) conn rows s db fs).state
      = (MySQL.connectRun conn s).1 := by
    simp only [MySQL.insertRun, hconn]
  have hconn2 : (MySQL.connectRun conn
      (MySQL.insertRun (.df t) conn rows s db fs).state).2 = .ok () := by
    rw [hstate, connectRun_of_connected conn _ (connected_of_connectRun_ok conn s hconn)]
  have hdb : (MySQL.insertRun (.df t) conn rows s db fs).db
      = (if MySQL.check_for_table db t.name then db else db.register t.name) := by
    simp only [MySQL.insertRun, hconn]
  have hexists : MySQL.check_for_table
      (MySQL.insertRun (.df t) conn rows s db fs).db t.name = true := by
    rw [hdb]
    by_cases hct : MySQL.check_for_table db t.name
    · simp [hct]
    · have hm : t.name ∉ db.tables := by
        simpa [MySQL.check_for_table] using hct
      simp [hm, Database.register, MySQL.check_for_table]
  have hsecond : ∀ (s' : MySQLState) (db' : Database) (fs' : FsT),
      (MySQL.connectRun conn s').2 = .ok () →
      MySQL.check_for_table db' t.name = true →
      (MySQL.insertRun (.df t) conn rows s' db' fs').stmts
        = (t.rows.filter (MySQL.rowSelected rows)).map
            (fun p => MySQL.insertStmt (MySQL.insertColsSql t) p.2) := by
    intro s' db' fs' h1 h2
    simp only [MySQL.insertRun, h1, h2]
    simp
  exact ⟨by simp only [MySQL.insertRun, hconn], hsecond _ _ _ hconn2 hexists⟩

/-- Witness for C4: on an engine without table `t`, the first `insert`
issues the create and the second does not. -/
theorem mysql_insert_create_once_witness :
    (MySQL.connectRun (.str sampleConn) (MySQLState.mk true none)).2 = .ok () ∧
    ((MySQL.insertRun (.df sampleDf) (.str sampleConn) none
        (MySQLState.mk true none) sampleDb []).stmts
      = (if MySQL.check_for_table sampleDb sampleDf.name then []
         else [MySQL.createSql sampleDf])
        ++ (sampleDf.rows.filter (MySQL.rowSelected none)).map
            (fun p => MySQL.insertStmt (MySQL.insertColsSql sampleDf) p.2) ∧
     (MySQL.insertRun (.df sampleDf) (.str sampleConn) none
        (MySQL.insertRun (.df sampleDf) (.str sampleConn) none
          (MySQLState.mk true none) sampleDb []).state
        (MySQL.insertRun (.df sampleDf) (.str sampleConn) none
          (MySQLState.mk true none) sampleDb []).db
        (MySQL.insertRun (.df sampleDf) (.str sampleConn) none
          (MySQLState.mk true none) sampleDb []).fs).stmts
      = (sampleDf.rows.filter (MySQL.rowSelected none)).map
          (fun p => MySQL.insertStmt (MySQL.insertColsSql sampleDf) p.2)) :=
  ⟨rfl, mysql_insert_create_once sampleDf (.str sampleConn) none
      (MySQLState.mk true none) sampleDb [] rfl⟩

/-- C5: `bulk_insert` on a DataFrame stages the rows to the `temp.csv`
staging file as `;`-joined lines, ensures the table exists (creating it
when missing), executes the engine-native `LOAD DATA` statement referencing
that file, returns that statement's matched-row count, and removes the
staging file, which therefore no longer exists when the call returns. -/
theorem mysql_bulk_insert_staging (t : DataFrame) (conn : ConnArg)
    (s : MySQLState) (db : Database) (fs : FsT)
    (hconn : (MySQL.connectRun conn s).2 = .ok ()) :
    (MySQL.bulkInsertRun (.df t) conn s db fs).fwrites
      = [(MySQL.csvPath, t.rows.map (fun p => joinSep ";" (p.2.map csvCell)))] ∧
    (MySQL.bulkInsertRun (.df t) conn s db fs).stmts
      = (if MySQL.check_for_table db t.name then [] else [MySQL.createSql t])
        ++ [MySQL.loadSql t] ∧
    (MySQL.bulkInsertRun (.df t) conn s db fs).result
      = .ok (db.rowcount (MySQL.loadSql t)) ∧
    fsHas (MySQL.bulkInsertRun (.df t) conn s db fs).fs MySQL.csvPath = false := by
  refine ⟨?_, ?_, ?_, ?_⟩
  · simp only [MySQL.bulkInsertRun, hconn, MySQL.toCsvLines]
  · simp only [MySQL.bulkInsertRun, hconn]
  · simp only [MySQL.bulkInsertRun, hconn]
    by_cases hct : MySQL.check_for_table db t.name
    · simp [hct]
    · simp [hct, Database.register]
  · simp only [MySQL.bulkInsertRun, hconn]
    exact fsHas_fsRemove _ _

/-- Witness for C5 on an engine that already has the table. -/
theorem mysql_bulk_insert_staging_witness :
    (MySQL.connectRun (.str sampleConn) (MySQLState.mk true none)).2 = .ok () ∧
    ((MySQL.bulkInsertRun (.df sampleDf) (.str sampleConn)
        (MySQLState.mk true none) sampleDbT [("old.csv", ["x"])]).fwrites
      = [(MySQL.csvPath,
          sampleDf.rows.map (fun p => joinSep ";" (p.2.map csvCell)))] ∧
     (MySQL.bulkInsertRun (.df sampleDf) (.str sampleConn)
        (MySQLState.mk true none) sampleDbT [("old.csv", ["x"])]).stmts
      = (if MySQL.check_for_table sampleDbT sampleDf.name then []
         else [MySQL.createSql sampleDf]) ++ [MySQL.loadSql sampleDf] ∧
     (MySQL.bulkInsertRun (.df sampleDf) (.str sampleConn)
        (MySQLState.mk true none) sampleDbT [("old.csv", ["x"])]).result
      = .ok (sampleDbT.rowcount (MySQL.loadSql sampleDf)) ∧
     fsHas (MySQL.bulkInsertRun (.df sampleDf) (.str sampleConn)
        (MySQLState.mk true none) sampleDbT [("old.csv", ["x"])]).fs
       MySQL.csvPath = false) :=
  ⟨rfl, mysql_bulk_insert_staging sampleDf (.str sampleConn)
      (MySQLState.mk true none) sampleDbT [("old.csv", ["x"])] rfl⟩
